import Mathlib

/-!
Verification development for `src/pytorch/src/models/continual_vit_module.py`
(`ContinualViTLitModule`, a continual-learning Lightning module).

Shallow embedding conventions:
* Tensors are rational-valued nested lists (`Mat`); machine floats are modelled
  exactly by `ℚ`.
* The neural network `net`, the two loss collaborators
  (`masked_cross_entropy_loss` from `src/losses/loss.py`,
  `quaternion_geodesic_loss` from `src/losses/loss.py`), the rotation-error
  collaborator (`get_rotation_error_in_degrees` from
  `src/metrics/rotation_error.py`) and the class-range resolver
  (`compute_class_ranges` from `src/utils/continual_learning_utils.py`) are
  repository code not provided under `src/`; they are treated as opaque
  function parameters, exactly as the module consumes them.
* `torchmetrics.MeanMetric` / `torchmetrics.Accuracy` aggregators are modelled
  by their documented running state (sum/count, correct/total).
* Python `dict` indexing `metrics[key]` raises `KeyError` on a missing key;
  a raised exception is modelled by an `Option` result (`none` = exception).
-/

/-- A rational-valued 2-D tensor (list of rows). -/
abbrev Mat := List (List ℚ)

/-- Running state of one torchmetrics aggregator held in a metric registry:
`mean sum count` models `MeanMetric` (mean of all values fed so far);
`multiclassAcc numClasses correct total` models
`Accuracy(task="multiclass", num_classes=numClasses)`. -/
inductive MetricState where
  | mean (sum : ℚ) (count : ℕ)
  | multiclassAcc (num_classes : ℕ) (correct : ℕ) (total : ℕ)
  deriving DecidableEq, Repr

/-- Model of `Metric.reset()`: clear the aggregator back to its freshly-constructed
empty state (the class cardinality of an accuracy metric is retained). -/
def MetricState.reset : MetricState → MetricState
  | .mean _ _ => .mean 0 0
  | .multiclassAcc n _ _ => .multiclassAcc n 0 0

/-- Model of `MeanMetric.update(values)`: add the elements of the value tensor to the
running sum and its element count to the running count.  Updating with an
empty tensor leaves the state unchanged.  (No-op on an accuracy aggregator;
the registries never pair this updater with one.) -/
def MetricState.updateMean (vals : List ℚ) : MetricState → MetricState
  | .mean s c => .mean (s + vals.sum) (c + vals.length)
  | .multiclassAcc n c t => .multiclassAcc n c t

/-- Index of the first maximal element of a row, accumulator form. -/
def argmaxGo : ℕ → ℚ → ℕ → List ℚ → ℕ
  | best, _, _, [] => best
  | best, bestVal, i, y :: ys =>
    if bestVal < y then argmaxGo i y (i + 1) ys else argmaxGo best bestVal (i + 1) ys

/-- Model of `torch.argmax` over one row of logits (first maximal index; 0 on an
empty row). -/
def argmax : List ℚ → ℕ
  | [] => 0
  | x :: xs => argmaxGo 0 x 1 xs

/-- Number of batch examples whose argmax-predicted class equals the label. -/
def countCorrect (pred_class : Mat) (labels : List ℕ) : ℕ :=
  ((pred_class.map argmax).zip labels).countP (fun p => p.1 == p.2)

/-- Model of `Accuracy.update(logits, labels)` for a multiclass accuracy aggregator:
predictions are taken as the argmax of the logits, and correct/total counts
are accumulated.  (No-op on a mean aggregator; never paired with one.) -/
def MetricState.updateAcc (pred_class : Mat) (labels : List ℕ) : MetricState → MetricState
  | .mean s c => .mean s c
  | .multiclassAcc n c t =>
    .multiclassAcc n (c + countCorrect pred_class labels) (t + labels.length)

/-- Whether an aggregator is in its freshly-constructed empty state. -/
def MetricState.IsEmpty : MetricState → Prop
  | .mean s c => s = 0 ∧ c = 0
  | .multiclassAcc _ c t => c = 0 ∧ t = 0

/-- A metric registry: the Python `dict` from metric name to aggregator
returned by `create_metrics`. -/
abbrev Registry := List (String × MetricState)

/-- Model of `metrics[k]` read access on a registry (first entry with the key). -/
def Registry.lookup : Registry → String → Option MetricState
  | [], _ => none
  | (k', s) :: rest, k => if k' = k then some s else Registry.lookup rest k

/-- Model of `metrics[k].update(...)`: apply `f` to the entry at key `k`; `none`
models the `KeyError` a Python dict raises when the key is absent. -/
def Registry.updateE : Registry → String → (MetricState → MetricState) → Option Registry
  | [], _, _ => none
  | (k', s) :: rest, k, f =>
    if k' = k then some ((k', f s) :: rest)
    else (Registry.updateE rest k f).map (fun r => (k', s) :: r)

/-- Model of `metric.reset()` applied to every aggregator of a registry (the loop body
of the three `on_*_epoch_end` hooks). -/
def Registry.resetAll (r : Registry) : Registry :=
  r.map (fun p => (p.1, MetricState.reset p.2))

/-- Model of `ContinualViTLitModule.create_metrics` (lines 119-142): the seven metrics
of one split, keyed `"{split}/{metric}"`, with the multiclass accuracy
aggregator built over the fixed global class count 77. -/
def create_metrics (pre : String) : Registry :=
  [(pre ++ "/loss", MetricState.mean 0 0),
   (pre ++ "/classification_loss", MetricState.mean 0 0),
   (pre ++ "/quaternion_geodesic_loss", MetricState.mean 0 0),
   (pre ++ "/class_acc", MetricState.multiclassAcc 77 0 0),
   (pre ++ "/rotation_error", MetricState.mean 0 0),
   (pre ++ "/all_seen_class_acc", MetricState.mean 0 0),
   (pre ++ "/current_task_class_acc", MetricState.mean 0 0)]

/-- Modelled from the spec: `calculate_continual_accuracy` from
`src/metrics/continual_accuracy.py` is not included under `src/`.  Per spec
sections 4.4 and 7: accuracy over the evaluable examples (those whose
ground-truth label lies in the restriction set); examples with labels outside
the set are excluded from numerator and denominator; with no evaluable
example the result is empty, so the consuming running-mean aggregator is left
unchanged (denominator 0 injects neither 0 nor NaN). -/
def calculate_continual_accuracy
    (pred_indices object_ids : List ℕ) (class_subset : List ℕ) : List ℚ :=
  match (pred_indices.zip object_ids).filter (fun p => decide (p.2 ∈ class_subset)) with
  | [] => []
  | evaluable =>
    [((evaluable.filter (fun p => p.1 == p.2)).length : ℚ) / (evaluable.length : ℚ)]

/-- A batch as consumed by the module (`BatchDict` keys of the source). -/
structure Batch where
  rgbd_image : Mat
  object_ids : List ℕ
  unit_quaternion : Mat
  object_name : List String

/-- State of a `ContinualViTLitModule` (lines 75-117).  The optimizer and
scheduler factories kept in `hparams` are consumed only by
`configure_optimizers` and are passed to it directly; `rotation_weight` and
`compile` are the corresponding `hparams` entries.  The two loss attributes
bound in `__init__` are held as opaque function fields. -/
structure ContinualViTLitModule where
  net : Mat → Mat × Mat
  rotation_weight : ℚ
  compile : Bool
  task_id : ℤ
  classification_loss : Mat → List ℕ → List ℕ → ℚ
  quaternion_geodesic_loss : Mat → Mat → ℚ
  train_metrics : Registry
  val_metrics : Registry
  test_metrics : Registry
  current_task_classes : List ℕ
  all_seen_classes : List ℕ

/-- Model of `ContinualViTLitModule.__init__` (lines 76-117).  The imported collaborator
`masked_cross_entropy_loss` (from `src/losses/loss.py`) and
`quaternion_geodesic_loss` (same file) are bound to the loss fields; the
class-range resolver `compute_class_ranges` (from
`src/utils/continual_learning_utils.py`) is invoked once and its third and
fourth components are stored. -/
def mkContinualViTLitModule (net : Mat → Mat × Mat) (rotation_weight : ℚ)
    (compile : Bool) (task_id : ℤ) (num_classes_for_task : Option ℕ)
    (masked_cross_entropy_loss : Mat → List ℕ → List ℕ → ℚ)
    (quaternion_geodesic_loss : Mat → Mat → ℚ)
    (compute_class_ranges : Option ℕ → ℤ → List ℕ × List ℕ × List ℕ × List ℕ) :
    ContinualViTLitModule :=
  let ranges := compute_class_ranges num_classes_for_task task_id
  { net := net
    rotation_weight := rotation_weight
    compile := compile
    task_id := task_id
    classification_loss := masked_cross_entropy_loss
    quaternion_geodesic_loss := quaternion_geodesic_loss
    train_metrics := create_metrics "train"
    val_metrics := create_metrics "val"
    test_metrics := create_metrics "test"
    current_task_classes := ranges.2.2.1
    all_seen_classes := ranges.2.2.2 }

/-- Model of `forward` (lines 144-155): pass the image through the network. -/
def forward (m : ContinualViTLitModule) (x : Mat) : Mat × Mat :=
  m.net x

/-- The 7-tuple returned by `model_step` (`ModelStepOutput` alias). -/
structure ModelStepOutput where
  loss : ℚ
  classification_loss : ℚ
  quaternion_geodesic_loss : ℚ
  pred_class : Mat
  pred_quaternion : Mat
  object_ids : List ℕ
  unit_quaternion : Mat

/-- Model of `model_step` (lines 157-202): forward the batch, compute the masked
classification loss with `valid_classes = all_seen_classes`, the quaternion
geodesic loss, and combine them with the construction-time
`rotation_weight`. -/
def model_step (m : ContinualViTLitModule) (batch : Batch) : ModelStepOutput :=
  let object_ids := batch.object_ids
  let unit_quaternion := batch.unit_quaternion
  let pq := forward m batch.rgbd_image
  let pred_class := pq.1
  let pred_quaternion := pq.2
  let valid_classes := m.all_seen_classes
  let classificationLoss := m.classification_loss pred_class object_ids valid_classes
  let quatGeodesicLoss := m.quaternion_geodesic_loss pred_quaternion unit_quaternion
  let loss := classificationLoss + m.rotation_weight * quatGeodesicLoss
  ⟨loss, classificationLoss, quatGeodesicLoss, pred_class, pred_quaternion,
    object_ids, unit_quaternion⟩

/-- The registry selection of `log_metrics` (lines 227-233): `train_metrics`
when the prefix is `"train"`, `val_metrics` when `"val"`, `test_metrics`
otherwise. -/
def selectMetrics (m : ContinualViTLitModule) (pre : String) : Registry :=
  if pre = "train" then m.train_metrics
  else if pre = "val" then m.val_metrics
  else m.test_metrics

/-- Write back the registry selected by `selectMetrics` (the in-place dict
mutation of the source, made explicit by state passing). -/
def setSelected (m : ContinualViTLitModule) (pre : String) (r : Registry) :
    ContinualViTLitModule :=
  if pre = "train" then { m with train_metrics := r }
  else if pre = "val" then { m with val_metrics := r }
  else { m with test_metrics := r }

/-- Model of `log_metrics` (lines 204-265): select the split registry, compute rotation
errors and the two restricted accuracies, then update the seven aggregators in
source order.  `get_rotation_error_in_degrees`
(`src/metrics/rotation_error.py`, not under `src/`) is an opaque parameter.
`none` models the `KeyError` raised by `metrics[...]` on a missing key; the
final `self.log_dict` publication is a sink with no module state. -/
def log_metrics (get_rotation_error_in_degrees : Mat → Mat → List ℚ)
    (m : ContinualViTLitModule) (pre : String)
    (loss classificationLoss quatGeodesicLoss : ℚ)
    (pred_class pred_quaternion : Mat) (object_ids : List ℕ)
    (unit_quaternion : Mat) : Option ContinualViTLitModule :=
  let metrics := selectMetrics m pre
  let rotation_errors := get_rotation_error_in_degrees pred_quaternion unit_quaternion
  let pred_indices := pred_class.map argmax
  let current_task_acc :=
    calculate_continual_accuracy pred_indices object_ids m.current_task_classes
  let all_seen_acc :=
    calculate_continual_accuracy pred_indices object_ids m.all_seen_classes
  Option.bind (Registry.updateE metrics (pre ++ "/loss")
      (MetricState.updateMean [loss])) fun r1 =>
  Option.bind (Registry.updateE r1 (pre ++ "/classification_loss")
      (MetricState.updateMean [classificationLoss])) fun r2 =>
  Option.bind (Registry.updateE r2 (pre ++ "/quaternion_geodesic_loss")
      (MetricState.updateMean [quatGeodesicLoss])) fun r3 =>
  Option.bind (Registry.updateE r3 (pre ++ "/class_acc")
      (MetricState.updateAcc pred_class object_ids)) fun r4 =>
  Option.bind (Registry.updateE r4 (pre ++ "/rotation_error")
      (MetricState.updateMean rotation_errors)) fun r5 =>
  Option.bind (Registry.updateE r5 (pre ++ "/current_task_class_acc")
      (MetricState.updateMean current_task_acc)) fun r6 =>
  Option.bind (Registry.updateE r6 (pre ++ "/all_seen_class_acc")
      (MetricState.updateMean all_seen_acc)) fun r7 =>
  some (setSelected m pre r7)

/-- Model of `training_step` (lines 267-300): run the model step, log under `"train"`,
and return the combined loss alongside the updated state. -/
def training_step (rotErr : Mat → Mat → List ℚ) (m : ContinualViTLitModule)
    (batch : Batch) (batch_idx : ℕ) : Option (ContinualViTLitModule × ℚ) :=
  let out := model_step m batch
  (log_metrics rotErr m "train" out.loss out.classification_loss
      out.quaternion_geodesic_loss out.pred_class out.pred_quaternion
      out.object_ids out.unit_quaternion).map (fun m' => (m', out.loss))

/-- Model of `validation_step` (lines 311-340): run the model step and log under
`"val"`; no value beyond the updated state is returned. -/
def validation_step (rotErr : Mat → Mat → List ℚ) (m : ContinualViTLitModule)
    (batch : Batch) (batch_idx : ℕ) : Option ContinualViTLitModule :=
  let out := model_step m batch
  log_metrics rotErr m "val" out.loss out.classification_loss
    out.quaternion_geodesic_loss out.pred_class out.pred_quaternion
    out.object_ids out.unit_quaternion

/-- Model of `test_step` (lines 351-380): run the model step and log under `"test"`;
no value beyond the updated state is returned. -/
def test_step (rotErr : Mat → Mat → List ℚ) (m : ContinualViTLitModule)
    (batch : Batch) (batch_idx : ℕ) : Option ContinualViTLitModule :=
  let out := model_step m batch
  log_metrics rotErr m "test" out.loss out.classification_loss
    out.quaternion_geodesic_loss out.pred_class out.pred_quaternion
    out.object_ids out.unit_quaternion

/-- Model of `on_train_epoch_end` (lines 302-309): reset every train metric. -/
def on_train_epoch_end (m : ContinualViTLitModule) : ContinualViTLitModule :=
  { m with train_metrics := Registry.resetAll m.train_metrics }

/-- Model of `on_validation_epoch_end` (lines 342-349): reset every val metric. -/
def on_validation_epoch_end (m : ContinualViTLitModule) : ContinualViTLitModule :=
  { m with val_metrics := Registry.resetAll m.val_metrics }

/-- Model of `on_test_epoch_end` (lines 382-389): reset every test metric. -/
def on_test_epoch_end (m : ContinualViTLitModule) : ContinualViTLitModule :=
  { m with test_metrics := Registry.resetAll m.test_metrics }

/-- Model of `torch.softmax` along the class dimension of one row, with the
exponential supplied as an abstract parameter `e` (the source's `exp` is an
opaque numeric primitive; only positivity matters for the stated
properties). -/
def softmax (e : ℚ → ℚ) (row : List ℚ) : List ℚ :=
  row.map (fun x => e x / (row.map e).sum)

/-- A value of the prediction-output dict: either a rational tensor or an
integer label vector. -/
inductive PredVal where
  | matQ (t : Mat)
  | vecN (l : List ℕ)
  deriving DecidableEq, Repr

/-- Model of `predict_step` (lines 391-425): forward the image, softmax the full-width
class logits, and return the four-key output dict with the two ground-truth
fields passed through unchanged. -/
def predict_step (e : ℚ → ℚ) (m : ContinualViTLitModule) (batch : Batch)
    (batch_idx : ℕ) : List (String × PredVal) :=
  let pq := forward m batch.rgbd_image
  let class_probabilities := pq.1.map (softmax e)
  [("class_probabilities", PredVal.matQ class_probabilities),
   ("predicted_quaternion", PredVal.matQ pq.2),
   ("object_ids", PredVal.vecN batch.object_ids),
   ("unit_quaternion", PredVal.matQ batch.unit_quaternion)]

/-- Model of `setup` (lines 427-435): wrap the network with `torch.compile` (an opaque
wrapper parameter) when the compile flag is set and the stage is `"fit"`. -/
def setup (torch_compile : (Mat → Mat × Mat) → Mat → Mat × Mat)
    (m : ContinualViTLitModule) (stage : Option String) : ContinualViTLitModule :=
  if m.compile ∧ stage = some "fit" then { m with net := torch_compile m.net }
  else m

/-- The configuration dictionary returned by `configure_optimizers`: either
only an optimizer, or an optimizer plus an `lr_scheduler` entry holding the
scheduler and its `"interval"` string. -/
inductive OptimizerConfig (O S : Type) where
  | optimizerOnly (optimizer : O)
  | withScheduler (optimizer : O) (scheduler : S) (interval : String)
  deriving DecidableEq, Repr

/-- Model of `configure_optimizers` (lines 437-467): build the optimizer from the
factory over the trainer parameters; when a scheduler factory is present,
instantiate it with the hardcoded `total_steps = 1400` and
`warmup_steps = int(0.05 * total_steps)` and register it with per-step
interval, otherwise return the optimizer alone.  The factories are the
`hparams.optimizer` / `hparams.scheduler` entries, passed explicitly. -/
def configure_optimizers {P O S : Type} (optimizerFactory : P → O)
    (schedulerFactory : Option (O → ℕ → ℕ → S)) (params : P) :
    OptimizerConfig O S :=
  let optimizer := optimizerFactory params
  match schedulerFactory with
  | some sched =>
    let total_steps : ℕ := 1400
    let warmup_steps : ℕ := 5 * total_steps / 100
    OptimizerConfig.withScheduler optimizer (sched optimizer warmup_steps total_steps)
      "step"
  | none => OptimizerConfig.optimizerOnly optimizer

/-- One observable state transition of the module: any harness-invocable
operation that produces a new module state (the three per-batch step
functions, a raw metrics update, the three epoch-end resets, or `setup`).
`predict_step`, `forward`, `model_step` and `configure_optimizers` return no
module state and so induce no transition. -/
inductive ModuleStep : ContinualViTLitModule → ContinualViTLitModule → Prop where
  | trainingStep (rotErr : Mat → Mat → List ℚ) (m : ContinualViTLitModule)
      (b : Batch) (i : ℕ) (m' : ContinualViTLitModule) (l : ℚ)
      (h : training_step rotErr m b i = some (m', l)) : ModuleStep m m'
  | validationStep (rotErr : Mat → Mat → List ℚ) (m : ContinualViTLitModule)
      (b : Batch) (i : ℕ) (m' : ContinualViTLitModule)
      (h : validation_step rotErr m b i = some m') : ModuleStep m m'
  | testStep (rotErr : Mat → Mat → List ℚ) (m : ContinualViTLitModule)
      (b : Batch) (i : ℕ) (m' : ContinualViTLitModule)
      (h : test_step rotErr m b i = some m') : ModuleStep m m'
  | logMetricsStep (rotErr : Mat → Mat → List ℚ) (m : ContinualViTLitModule)
      (pre : String) (loss cl ql : ℚ) (pc pq : Mat) (oi : List ℕ) (uq : Mat)
      (m' : ContinualViTLitModule)
      (h : log_metrics rotErr m pre loss cl ql pc pq oi uq = some m') :
      ModuleStep m m'
  | trainEpochEnd (m : ContinualViTLitModule) : ModuleStep m (on_train_epoch_end m)
  | valEpochEnd (m : ContinualViTLitModule) :
      ModuleStep m (on_validation_epoch_end m)
  | testEpochEnd (m : ContinualViTLitModule) : ModuleStep m (on_test_epoch_end m)
  | setupStage (tc : (Mat → Mat × Mat) → Mat → Mat × Mat)
      (m : ContinualViTLitModule) (stage : Option String) :
      ModuleStep m (setup tc m stage)

/-- Reachability: any finite sequence of module operations. -/
def ReachableFrom (m m' : ContinualViTLitModule) : Prop :=
  Relation.ReflTransGen ModuleStep m m'

/-! ### Concrete instances used by witnesses -/

/-- A concrete network for witnesses: two-class logits, identity quaternion. -/
def wNet : Mat → Mat × Mat := fun _ => ([[1, 0]], [[1, 0, 0, 0]])

/-- A concrete (constant-zero) masked cross-entropy collaborator. -/
def wMCE : Mat → List ℕ → List ℕ → ℚ := fun _ _ _ => 0

/-- A concrete (constant-zero) quaternion geodesic loss collaborator. -/
def wQGL : Mat → Mat → ℚ := fun _ _ => 0

/-- A concrete class-range resolver: current task `{0}`, seen `{0, 1}`. -/
def wCCR : Option ℕ → ℤ → List ℕ × List ℕ × List ℕ × List ℕ :=
  fun _ _ => ([], [], [0], [0, 1])

/-- A concrete rotation-error collaborator returning no errors. -/
def wRotErr : Mat → Mat → List ℚ := fun _ _ => []

/-- A concrete freshly constructed module for witnesses. -/
def wModule : ContinualViTLitModule :=
  mkContinualViTLitModule wNet 1 false 0 none wMCE wQGL wCCR

/-- A concrete batch whose only label, 5, lies outside `wModule`'s seen set. -/
def wBatch : Batch := ⟨[], [5], [], []⟩

/-- The state produced by one successful concrete `"train"` logging step on
the fresh witness module (used to instantiate hypotheses concretely). -/
def wLogged : ContinualViTLitModule :=
  (log_metrics wRotErr wModule "train" 0 0 0 [[1, 0]] [] [5] []).getD wModule

/-- A concrete positive stand-in for the exponential. -/
def wExp : ℚ → ℚ := fun _ => 1

/-! ### Helper lemmas -/

/-- Resetting is idempotent on a single aggregator. -/
theorem MetricState.reset_reset (s : MetricState) : s.reset.reset = s.reset := by
  cases s <;> rfl

/-- The reset aggregator is in the empty state. -/
theorem MetricState.reset_isEmpty (s : MetricState) : s.reset.IsEmpty := by
  cases s <;> simp [MetricState.reset, MetricState.IsEmpty]

/-- An empty update leaves a mean aggregator (indeed any aggregator)
unchanged: `MeanMetric.update` with an empty tensor adds nothing. -/
theorem MetricState.updateMean_nil (s : MetricState) :
    MetricState.updateMean [] s = s := by
  cases s <;> simp [MetricState.updateMean]

/-- Resetting a whole registry twice equals resetting it once. -/
theorem Registry.resetAll_idem (r : Registry) :
    Registry.resetAll (Registry.resetAll r) = Registry.resetAll r := by
  simp [Registry.resetAll, List.map_map, Function.comp_def, MetricState.reset_reset]

/-- The field `String.data` distributes over append. -/
theorem string_data_append (s t : String) : (s ++ t).data = s.data ++ t.data := by
  cases s; cases t; rfl

/-- Appending on the left is injective for strings. -/
theorem string_append_right_inj {s a b : String} (h : s ++ a = s ++ b) : a = b := by
  have hd := congrArg String.data h
  rw [string_data_append, string_data_append] at hd
  have h2 := List.append_cancel_left hd
  cases a; cases b; exact congrArg String.mk h2

/-- Distinct suffixes give distinct keys under a common split prefix. -/
theorem string_append_ne (s : String) {a b : String} (h : a ≠ b) :
    s ++ a ≠ s ++ b :=
  fun hc => h (string_append_right_inj hc)

/-- A successful keyed update changes exactly the entry at its key, by `f`. -/
theorem Registry.lookup_updateE {r r' : Registry} {k : String}
    {f : MetricState → MetricState} (h : Registry.updateE r k f = some r')
    (k' : String) :
    Registry.lookup r' k'
      = if k' = k then (Registry.lookup r k').map f else Registry.lookup r k' := by
  induction r generalizing r' with
  | nil => simp [Registry.updateE] at h
  | cons hd tl ih =>
    obtain ⟨k₀, s₀⟩ := hd
    rw [Registry.updateE] at h
    by_cases hk : k₀ = k
    · subst hk
      rw [if_pos rfl] at h
      cases h
      by_cases hk' : k₀ = k'
      · subst hk'
        simp [Registry.lookup]
      · have hks : ¬k' = k₀ := fun hc => hk' hc.symm
        simp [Registry.lookup, hk', hks]
    · rw [if_neg hk] at h
      obtain ⟨rt, hrt, hr⟩ := Option.map_eq_some'.mp h
      subst hr
      by_cases hk' : k₀ = k'
      · subst hk'
        simp [Registry.lookup, hk]
      · have hks : ¬k' = k₀ := fun hc => hk' hc.symm
        simp only [Registry.lookup, if_neg hk']
        exact ih hrt

/-- An update at an absent key raises (is `none`). -/
theorem Registry.updateE_eq_none {r : Registry} {k : String}
    (f : MetricState → MetricState) (h : Registry.lookup r k = none) :
    Registry.updateE r k f = none := by
  induction r with
  | nil => rfl
  | cons hd tl ih =>
    obtain ⟨k₀, s₀⟩ := hd
    rw [Registry.lookup] at h
    by_cases hk : k₀ = k
    · rw [if_pos hk] at h
      cases h
    · rw [if_neg hk] at h
      rw [Registry.updateE, if_neg hk, ih h]
      rfl

/-- Mapping an empty mean-update over an optional aggregator is the
identity. -/
theorem option_map_updateMean_nil (o : Option MetricState) :
    o.map (MetricState.updateMean []) = o := by
  cases o <;> simp [MetricState.updateMean_nil]

/-- Reading back the registry written by `setSelected` with the same split
name returns exactly the written registry. -/
theorem selectMetrics_setSelected (m : ContinualViTLitModule) (pre : String)
    (r : Registry) : selectMetrics (setSelected m pre r) pre = r := by
  by_cases h1 : pre = "train"
  · subst h1; simp [selectMetrics, setSelected]
  · by_cases h2 : pre = "val"
    · subst h2; simp [selectMetrics, setSelected]
    · simp [selectMetrics, setSelected, h1, h2]

/-- The write-back `setSelected` only writes a metric registry: the task context is
untouched. -/
theorem setSelected_preserves (m : ContinualViTLitModule) (pre : String)
    (r : Registry) :
    (setSelected m pre r).task_id = m.task_id
    ∧ (setSelected m pre r).current_task_classes = m.current_task_classes
    ∧ (setSelected m pre r).all_seen_classes = m.all_seen_classes := by
  unfold setSelected
  split_ifs <;> exact ⟨rfl, rfl, rfl⟩

/-- For a split name that is neither `"train"` nor `"val"`, the selection
falls through to the test registry. -/
theorem selectMetrics_not_train_val {m : ContinualViTLitModule} {pre : String}
    (h1 : pre ≠ "train") (h2 : pre ≠ "val") :
    selectMetrics m pre = m.test_metrics := by
  simp [selectMetrics, h1, h2]

/-- For a split name that is neither `"train"` nor `"val"`, the write-back
goes to the test registry. -/
theorem setSelected_not_train_val {m : ContinualViTLitModule} {pre : String}
    (r : Registry) (h1 : pre ≠ "train") (h2 : pre ≠ "val") :
    setSelected m pre r = { m with test_metrics := r } := by
  simp [setSelected, h1, h2]

/-- Characterization of a successful `log_metrics` call: the seven keyed
updates succeed in source order on the selected registry, and the result
writes the final registry back to the selected split. -/
theorem log_metrics_spec {rotErr : Mat → Mat → List ℚ}
    {m : ContinualViTLitModule} {pre : String} {loss cl ql : ℚ} {pc pq : Mat}
    {oi : List ℕ} {uq : Mat} {m' : ContinualViTLitModule}
    (h : log_metrics rotErr m pre loss cl ql pc pq oi uq = some m') :
    ∃ r1 r2 r3 r4 r5 r6 r7,
      Registry.updateE (selectMetrics m pre) (pre ++ "/loss")
          (MetricState.updateMean [loss]) = some r1
      ∧ Registry.updateE r1 (pre ++ "/classification_loss")
          (MetricState.updateMean [cl]) = some r2
      ∧ Registry.updateE r2 (pre ++ "/quaternion_geodesic_loss")
          (MetricState.updateMean [ql]) = some r3
      ∧ Registry.updateE r3 (pre ++ "/class_acc")
          (MetricState.updateAcc pc oi) = some r4
      ∧ Registry.updateE r4 (pre ++ "/rotation_error")
          (MetricState.updateMean (rotErr pq uq)) = some r5
      ∧ Registry.updateE r5 (pre ++ "/current_task_class_acc")
          (MetricState.updateMean
            (calculate_continual_accuracy (pc.map argmax) oi m.current_task_classes))
          = some r6
      ∧ Registry.updateE r6 (pre ++ "/all_seen_class_acc")
          (MetricState.updateMean
            (calculate_continual_accuracy (pc.map argmax) oi m.all_seen_classes))
          = some r7
      ∧ m' = setSelected m pre r7 := by
  unfold log_metrics at h
  simp only [Option.bind_eq_some, Option.pure_def, Option.some.injEq] at h
  obtain ⟨r1, h1, r2, h2, r3, h3, r4, h4, r5, h5, r6, h6, r7, h7, hm⟩ := h
  exact ⟨r1, r2, r3, r4, r5, r6, r7, h1, h2, h3, h4, h5, h6, h7, hm.symm⟩

/-- A successful `log_metrics` never touches the task context. -/
theorem log_metrics_preserves {rotErr : Mat → Mat → List ℚ}
    {m : ContinualViTLitModule} {pre : String} {loss cl ql : ℚ} {pc pq : Mat}
    {oi : List ℕ} {uq : Mat} {m' : ContinualViTLitModule}
    (h : log_metrics rotErr m pre loss cl ql pc pq oi uq = some m') :
    m'.task_id = m.task_id
    ∧ m'.current_task_classes = m.current_task_classes
    ∧ m'.all_seen_classes = m.all_seen_classes := by
  obtain ⟨_, _, _, _, _, _, r7, _, _, _, _, _, _, _, hm⟩ := log_metrics_spec h
  rw [hm]
  exact setSelected_preserves m pre r7

/-- When every label lies outside the restriction set there is no evaluable
example, so the restricted accuracy result is empty. -/
theorem calc_acc_eq_nil {preds oi cs : List ℕ} (h : ∀ l ∈ oi, l ∉ cs) :
    calculate_continual_accuracy preds oi cs = [] := by
  have hfil : (preds.zip oi).filter (fun p => decide (p.2 ∈ cs)) = [] := by
    rw [List.filter_eq_nil_iff]
    intro p hp
    have h2 := (List.of_mem_zip hp).2
    simpa using h p.2 h2
  rw [calculate_continual_accuracy, hfil]

/-- The step `training_step` succeeds exactly when its `"train"` logging call does, in
which case the returned scalar is the combined loss of `model_step`. -/
theorem training_step_some {rotErr : Mat → Mat → List ℚ}
    {m m' : ContinualViTLitModule} {b : Batch} {i : ℕ} {l : ℚ}
    (h : training_step rotErr m b i = some (m', l)) :
    log_metrics rotErr m "train" (model_step m b).loss
      (model_step m b).classification_loss
      (model_step m b).quaternion_geodesic_loss (model_step m b).pred_class
      (model_step m b).pred_quaternion (model_step m b).object_ids
      (model_step m b).unit_quaternion = some m'
    ∧ l = (model_step m b).loss := by
  unfold training_step at h
  obtain ⟨mm, hmm, hp⟩ := Option.map_eq_some'.mp h
  obtain ⟨rfl, rfl⟩ := Prod.mk.injEq .. ▸ hp
  exact ⟨hmm, rfl⟩

/-- Every single operation preserves the task context fields. -/
theorem moduleStep_preserves {m m' : ContinualViTLitModule}
    (h : ModuleStep m m') :
    m'.task_id = m.task_id
    ∧ m'.current_task_classes = m.current_task_classes
    ∧ m'.all_seen_classes = m.all_seen_classes := by
  cases h with
  | trainingStep rotErr m b i m' l hl =>
    exact log_metrics_preserves (training_step_some hl).1
  | validationStep rotErr m b i m' hl => exact log_metrics_preserves hl
  | testStep rotErr m b i m' hl => exact log_metrics_preserves hl
  | logMetricsStep rotErr m pre loss cl ql pc pq oi uq m' hl =>
    exact log_metrics_preserves hl
  | trainEpochEnd m => exact ⟨rfl, rfl, rfl⟩
  | valEpochEnd m => exact ⟨rfl, rfl, rfl⟩
  | testEpochEnd m => exact ⟨rfl, rfl, rfl⟩
  | setupStage tc m stage =>
    unfold setup
    split <;> exact ⟨rfl, rfl, rfl⟩

/-- Summing a list divided elementwise by a constant divides the sum. -/
theorem list_sum_map_div (l : List ℚ) (c : ℚ) :
    (l.map (fun x => x / c)).sum = l.sum / c := by
  induction l with
  | nil => simp
  | cons x xs ih => simp [ih, add_div]

/-- Softmax of a nonempty row with a positive exponential sums to 1. -/
theorem softmax_sum {e : ℚ → ℚ} (hpos : ∀ x, 0 < e x) {row : List ℚ}
    (hne : row ≠ []) : (softmax e row).sum = 1 := by
  have hspos : 0 < (row.map e).sum := by
    apply List.sum_pos
    · intro a ha
      obtain ⟨x, _, rfl⟩ := List.mem_map.mp ha
      exact hpos x
    · simpa using hne
  unfold softmax
  have hcomp : (fun x => e x / (row.map e).sum)
      = (fun y => y / (row.map e).sum) ∘ e := rfl
  rw [hcomp, ← List.map_map, list_sum_map_div, div_self (ne_of_gt hspos)]

/-- Softmax keeps the full logit width of its row. -/
theorem softmax_length (e : ℚ → ℚ) (row : List ℚ) :
    (softmax e row).length = row.length := by
  simp [softmax]

/-! ### Claims -/

/-- Claim C1: for every batch, `model_step` computes the classification loss by
applying the bound masked cross-entropy collaborator with the valid-class set
equal to `all_seen_classes` (the resolver's cumulative component, and not
`current_task_classes` — the output is invariant under changing that field),
and returns the combined loss
`classification_loss + rotation_weight * rotation_loss` with the
construction-time `rotation_weight`. -/
theorem c1_model_step_masked_loss (net : Mat → Mat × Mat) (w : ℚ) (cmp : Bool)
    (tid : ℤ) (nct : Option ℕ) (mce : Mat → List ℕ → List ℕ → ℚ)
    (qgl : Mat → Mat → ℚ)
    (ccr : Option ℕ → ℤ → List ℕ × List ℕ × List ℕ × List ℕ) (b : Batch) :
    (model_step (mkContinualViTLitModule net w cmp tid nct mce qgl ccr) b).classification_loss
      = mce (net b.rgbd_image).1 b.object_ids
          (mkContinualViTLitModule net w cmp tid nct mce qgl ccr).all_seen_classes
    ∧ (mkContinualViTLitModule net w cmp tid nct mce qgl ccr).all_seen_classes
      = (ccr nct tid).2.2.2
    ∧ (model_step (mkContinualViTLitModule net w cmp tid nct mce qgl ccr) b).loss
      = (model_step (mkContinualViTLitModule net w cmp tid nct mce qgl ccr) b).classification_loss
        + w * (model_step (mkContinualViTLitModule net w cmp tid nct mce qgl ccr) b).quaternion_geodesic_loss
    ∧ ∀ cur : List ℕ,
        model_step
          { mkContinualViTLitModule net w cmp tid nct mce qgl ccr with
              current_task_classes := cur } b
        = model_step (mkContinualViTLitModule net w cmp tid nct mce qgl ccr) b :=
  ⟨rfl, rfl, rfl, fun _ => rfl⟩

/-- Claim C2: if every ground-truth label of the batch lies outside the
restriction set, a successful metrics update leaves that restricted-accuracy
aggregator's state exactly unchanged (no 0 or NaN is injected) — for
`current_task_class_acc` with respect to `current_task_classes` and for
`all_seen_class_acc` with respect to `all_seen_classes`. -/
theorem c2_restricted_accuracy_noop (rotErr : Mat → Mat → List ℚ)
    (m : ContinualViTLitModule) (pre : String) (loss cl ql : ℚ) (pc pq : Mat)
    (oi : List ℕ) (uq : Mat) (m' : ContinualViTLitModule)
    (h : log_metrics rotErr m pre loss cl ql pc pq oi uq = some m') :
    ((∀ l ∈ oi, l ∉ m.current_task_classes) →
      Registry.lookup (selectMetrics m' pre) (pre ++ "/current_task_class_acc")
        = Registry.lookup (selectMetrics m pre) (pre ++ "/current_task_class_acc"))
    ∧ ((∀ l ∈ oi, l ∉ m.all_seen_classes) →
      Registry.lookup (selectMetrics m' pre) (pre ++ "/all_seen_class_acc")
        = Registry.lookup (selectMetrics m pre) (pre ++ "/all_seen_class_acc")) := by
  obtain ⟨r1, r2, r3, r4, r5, r6, r7, h1, h2, h3, h4, h5, h6, h7, hm⟩ :=
    log_metrics_spec h
  subst hm
  rw [selectMetrics_setSelected]
  constructor
  · intro hcur
    rw [Registry.lookup_updateE h7, if_neg (string_append_ne pre (by decide)),
      Registry.lookup_updateE h6, if_pos rfl, calc_acc_eq_nil hcur,
      option_map_updateMean_nil,
      Registry.lookup_updateE h5, if_neg (string_append_ne pre (by decide)),
      Registry.lookup_updateE h4, if_neg (string_append_ne pre (by decide)),
      Registry.lookup_updateE h3, if_neg (string_append_ne pre (by decide)),
      Registry.lookup_updateE h2, if_neg (string_append_ne pre (by decide)),
      Registry.lookup_updateE h1, if_neg (string_append_ne pre (by decide))]
  · intro hall
    rw [Registry.lookup_updateE h7, if_pos rfl, calc_acc_eq_nil hall,
      option_map_updateMean_nil,
      Registry.lookup_updateE h6, if_neg (string_append_ne pre (by decide)),
      Registry.lookup_updateE h5, if_neg (string_append_ne pre (by decide)),
      Registry.lookup_updateE h4, if_neg (string_append_ne pre (by decide)),
      Registry.lookup_updateE h3, if_neg (string_append_ne pre (by decide)),
      Registry.lookup_updateE h2, if_neg (string_append_ne pre (by decide)),
      Registry.lookup_updateE h1, if_neg (string_append_ne pre (by decide))]

/-- Witness for C2: a fresh module at restriction sets `{0}` / `{0, 1}` and a
batch whose only label is 5 (outside both sets); both restricted-accuracy
aggregators are untouched by the step. -/
theorem c2_restricted_accuracy_noop_witness :
    Registry.lookup (selectMetrics wLogged "train") ("train" ++ "/current_task_class_acc")
      = Registry.lookup (selectMetrics wModule "train") ("train" ++ "/current_task_class_acc")
    ∧ Registry.lookup (selectMetrics wLogged "train") ("train" ++ "/all_seen_class_acc")
      = Registry.lookup (selectMetrics wModule "train") ("train" ++ "/all_seen_class_acc") := by
  have h := c2_restricted_accuracy_noop wRotErr wModule "train" 0 0 0 [[1, 0]] []
    [5] [] wLogged (by rfl)
  exact ⟨h.1 (by decide), h.2 (by decide)⟩

/-- Claim C3: for each split, the registry built at construction contains
exactly the seven metrics `loss`, `classification_loss`,
`quaternion_geodesic_loss`, `class_acc`, `rotation_error`,
`all_seen_class_acc`, `current_task_class_acc` under the `"{split}/"`
namespace; the multiclass accuracy aggregator is built with the fixed global
class count 77 (independent of the constructor's task arguments and of the
resolver's outputs), and every successful metrics update feeds it the raw
logits and labels. -/
theorem c3_registry_layout_and_raw_class_acc :
    ((create_metrics "train").map Prod.fst
        = ["train/loss", "train/classification_loss",
           "train/quaternion_geodesic_loss", "train/class_acc",
           "train/rotation_error", "train/all_seen_class_acc",
           "train/current_task_class_acc"]
      ∧ (create_metrics "val").map Prod.fst
        = ["val/loss", "val/classification_loss",
           "val/quaternion_geodesic_loss", "val/class_acc",
           "val/rotation_error", "val/all_seen_class_acc",
           "val/current_task_class_acc"]
      ∧ (create_metrics "test").map Prod.fst
        = ["test/loss", "test/classification_loss",
           "test/quaternion_geodesic_loss", "test/class_acc",
           "test/rotation_error", "test/all_seen_class_acc",
           "test/current_task_class_acc"])
    ∧ (∀ pre : String,
        Registry.lookup (create_metrics pre) (pre ++ "/class_acc")
          = some (MetricState.multiclassAcc 77 0 0))
    ∧ (∀ net w cmp tid nct mce qgl ccr,
        (mkContinualViTLitModule net w cmp tid nct mce qgl ccr).train_metrics
            = create_metrics "train"
        ∧ (mkContinualViTLitModule net w cmp tid nct mce qgl ccr).val_metrics
            = create_metrics "val"
        ∧ (mkContinualViTLitModule net w cmp tid nct mce qgl ccr).test_metrics
            = create_metrics "test")
    ∧ (∀ (rotErr : Mat → Mat → List ℚ) (m : ContinualViTLitModule)
        (pre : String) (loss cl ql : ℚ) (pc pq : Mat) (oi : List ℕ) (uq : Mat)
        (m' : ContinualViTLitModule),
        log_metrics rotErr m pre loss cl ql pc pq oi uq = some m' →
        Registry.lookup (selectMetrics m' pre) (pre ++ "/class_acc")
          = (Registry.lookup (selectMetrics m pre) (pre ++ "/class_acc")).map
              (MetricState.updateAcc pc oi)) := by
  refine ⟨⟨rfl, rfl, rfl⟩, ?_, fun _ _ _ _ _ _ _ _ => ⟨rfl, rfl, rfl⟩, ?_⟩
  · intro pre
    rw [create_metrics, Registry.lookup,
      if_neg (string_append_ne pre (by decide)), Registry.lookup,
      if_neg (string_append_ne pre (by decide)), Registry.lookup,
      if_neg (string_append_ne pre (by decide)), Registry.lookup, if_pos rfl]
  · intro rotErr m pre loss cl ql pc pq oi uq m' h
    obtain ⟨r1, r2, r3, r4, r5, r6, r7, h1, h2, h3, h4, h5, h6, h7, hm⟩ :=
      log_metrics_spec h
    subst hm
    rw [selectMetrics_setSelected,
      Registry.lookup_updateE h7, if_neg (string_append_ne pre (by decide)),
      Registry.lookup_updateE h6, if_neg (string_append_ne pre (by decide)),
      Registry.lookup_updateE h5, if_neg (string_append_ne pre (by decide)),
      Registry.lookup_updateE h4, if_pos rfl,
      Registry.lookup_updateE h3, if_neg (string_append_ne pre (by decide)),
      Registry.lookup_updateE h2, if_neg (string_append_ne pre (by decide)),
      Registry.lookup_updateE h1, if_neg (string_append_ne pre (by decide))]

/-- Witness for C3's conditional part: the concrete `"train"` step updates the
`class_acc` aggregator with exactly the raw batch logits and labels. -/
theorem c3_registry_layout_and_raw_class_acc_witness :
    Registry.lookup (selectMetrics wLogged "train") ("train" ++ "/class_acc")
      = (Registry.lookup (selectMetrics wModule "train") ("train" ++ "/class_acc")).map
          (MetricState.updateAcc [[1, 0]] [5]) :=
  c3_registry_layout_and_raw_class_acc.2.2.2 wRotErr wModule "train" 0 0 0
    [[1, 0]] [] [5] [] wLogged (by rfl)

/-- Claim C4: `task_id`, `current_task_classes` and `all_seen_classes` are
frozen after construction — no reachable sequence of module operations
changes them — and whenever the resolver's outputs satisfy the spec contract
`current_task_classes ⊆ all_seen_classes` at construction, that inclusion
holds in every reachable state. -/
theorem c4_task_context_frozen (m m' : ContinualViTLitModule)
    (h : ReachableFrom m m')
    (hsub : m.current_task_classes ⊆ m.all_seen_classes) :
    m'.task_id = m.task_id
    ∧ m'.current_task_classes = m.current_task_classes
    ∧ m'.all_seen_classes = m.all_seen_classes
    ∧ m'.current_task_classes ⊆ m'.all_seen_classes := by
  induction h with
  | refl => exact ⟨rfl, rfl, rfl, hsub⟩
  | tail _ hstep ih =>
    obtain ⟨ht, hc, ha⟩ := moduleStep_preserves hstep
    exact ⟨ht.trans ih.1, hc.trans ih.2.1, ha.trans ih.2.2.1,
      fun x hx => by
        rw [ha]
        exact ih.2.2.2 (by rwa [hc] at hx)⟩

/-- Witness for C4: the fresh witness module satisfies the inclusion, and one
epoch-end step preserves the whole task context. -/
theorem c4_task_context_frozen_witness :
    (on_train_epoch_end wModule).task_id = wModule.task_id
    ∧ (on_train_epoch_end wModule).current_task_classes = wModule.current_task_classes
    ∧ (on_train_epoch_end wModule).all_seen_classes = wModule.all_seen_classes
    ∧ (on_train_epoch_end wModule).current_task_classes
        ⊆ (on_train_epoch_end wModule).all_seen_classes :=
  c4_task_context_frozen wModule (on_train_epoch_end wModule)
    (Relation.ReflTransGen.single (ModuleStep.trainEpochEnd wModule))
    (by intro x hx; simp [wModule, mkContinualViTLitModule, wCCR] at hx ⊢; omega)

/-- Claim C5: with a scheduler factory, `configure_optimizers` instantiates the
scheduler with the fixed budget of 1400 total steps and 70 warmup steps (5% of
the total) and registers it with per-step interval; without one, only the
optimizer is returned. -/
theorem c5_configure_optimizers {P O S : Type} (optimizerFactory : P → O)
    (sched : O → ℕ → ℕ → S) (params : P) :
    configure_optimizers optimizerFactory (some sched) params
      = OptimizerConfig.withScheduler (optimizerFactory params)
          (sched (optimizerFactory params) 70 1400) "step"
    ∧ configure_optimizers (S := S) optimizerFactory none params
      = OptimizerConfig.optimizerOnly (optimizerFactory params)
    ∧ (70 : ℕ) = 5 * 1400 / 100 :=
  ⟨rfl, rfl, rfl⟩

/-- Claim C6: `training_step` runs the model step and the `"train"` metrics
update and returns the combined loss of `model_step` alongside the updated
state; `validation_step` and `test_step` run the same model step and metrics
update for `"val"` / `"test"` and return no value beyond the updated state. -/
theorem c6_split_step_functions (rotErr : Mat → Mat → List ℚ)
    (m : ContinualViTLitModule) (b : Batch) (i : ℕ) :
    training_step rotErr m b i
      = (log_metrics rotErr m "train" (model_step m b).loss
          (model_step m b).classification_loss
          (model_step m b).quaternion_geodesic_loss (model_step m b).pred_class
          (model_step m b).pred_quaternion (model_step m b).object_ids
          (model_step m b).unit_quaternion).map (fun m' => (m', (model_step m b).loss))
    ∧ validation_step rotErr m b i
      = log_metrics rotErr m "val" (model_step m b).loss
          (model_step m b).classification_loss
          (model_step m b).quaternion_geodesic_loss (model_step m b).pred_class
          (model_step m b).pred_quaternion (model_step m b).object_ids
          (model_step m b).unit_quaternion
    ∧ test_step rotErr m b i
      = log_metrics rotErr m "test" (model_step m b).loss
          (model_step m b).classification_loss
          (model_step m b).quaternion_geodesic_loss (model_step m b).pred_class
          (model_step m b).pred_quaternion (model_step m b).object_ids
          (model_step m b).unit_quaternion :=
  ⟨rfl, rfl, rfl⟩

/-- Claim C7: `predict_step` returns a mapping with exactly the keys
`class_probabilities`, `predicted_quaternion`, `object_ids`,
`unit_quaternion`; the probabilities are the softmax of the full-width class
logits along the class dimension (no masking: each output row keeps the full
logit width, and — with a positive exponential on nonempty rows — sums
to 1), and `object_ids` and `unit_quaternion` are the input batch fields
unchanged. -/
theorem c7_predict_step_schema (e : ℚ → ℚ) (m : ContinualViTLitModule)
    (b : Batch) (i : ℕ) (hpos : ∀ x, 0 < e x)
    (hrow : ∀ row ∈ (m.net b.rgbd_image).1, row ≠ []) :
    predict_step e m b i
      = [("class_probabilities",
            PredVal.matQ ((m.net b.rgbd_image).1.map (softmax e))),
         ("predicted_quaternion", PredVal.matQ (m.net b.rgbd_image).2),
         ("object_ids", PredVal.vecN b.object_ids),
         ("unit_quaternion", PredVal.matQ b.unit_quaternion)]
    ∧ (predict_step e m b i).map Prod.fst
      = ["class_probabilities", "predicted_quaternion", "object_ids",
         "unit_quaternion"]
    ∧ ∀ row ∈ (m.net b.rgbd_image).1,
        (softmax e row).sum = 1 ∧ (softmax e row).length = row.length := by
  refine ⟨rfl, rfl, ?_⟩
  intro row hr
  exact ⟨softmax_sum hpos (hrow row hr), softmax_length e row⟩

/-- Witness for C7 at the concrete witness module and batch. -/
theorem c7_predict_step_schema_witness :
    predict_step wExp wModule wBatch 0
      = [("class_probabilities",
            PredVal.matQ ((wModule.net wBatch.rgbd_image).1.map (softmax wExp))),
         ("predicted_quaternion", PredVal.matQ (wModule.net wBatch.rgbd_image).2),
         ("object_ids", PredVal.vecN wBatch.object_ids),
         ("unit_quaternion", PredVal.matQ wBatch.unit_quaternion)]
    ∧ (predict_step wExp wModule wBatch 0).map Prod.fst
      = ["class_probabilities", "predicted_quaternion", "object_ids",
         "unit_quaternion"]
    ∧ ∀ row ∈ (wModule.net wBatch.rgbd_image).1,
        (softmax wExp row).sum = 1 ∧ (softmax wExp row).length = row.length :=
  c7_predict_step_schema wExp wModule wBatch 0 (fun _ => one_pos) (by decide)


/-- Claim C8: each epoch-end hook resets exactly its own split's registry
(every aggregator goes to its empty state) and leaves the other two
registries and the task context unchanged. -/
theorem c8_epoch_end_reset_frame (m : ContinualViTLitModule) :
    ((on_train_epoch_end m).train_metrics = Registry.resetAll m.train_metrics
      ∧ (on_train_epoch_end m).val_metrics = m.val_metrics
      ∧ (on_train_epoch_end m).test_metrics = m.test_metrics
      ∧ (on_train_epoch_end m).task_id = m.task_id
      ∧ (on_train_epoch_end m).current_task_classes = m.current_task_classes
      ∧ (on_train_epoch_end m).all_seen_classes = m.all_seen_classes)
    ∧ ((on_validation_epoch_end m).val_metrics = Registry.resetAll m.val_metrics
      ∧ (on_validation_epoch_end m).train_metrics = m.train_metrics
      ∧ (on_validation_epoch_end m).test_metrics = m.test_metrics
      ∧ (on_validation_epoch_end m).task_id = m.task_id
      ∧ (on_validation_epoch_end m).current_task_classes = m.current_task_classes
      ∧ (on_validation_epoch_end m).all_seen_classes = m.all_seen_classes)
    ∧ ((on_test_epoch_end m).test_metrics = Registry.resetAll m.test_metrics
      ∧ (on_test_epoch_end m).train_metrics = m.train_metrics
      ∧ (on_test_epoch_end m).val_metrics = m.val_metrics
      ∧ (on_test_epoch_end m).task_id = m.task_id
      ∧ (on_test_epoch_end m).current_task_classes = m.current_task_classes
      ∧ (on_test_epoch_end m).all_seen_classes = m.all_seen_classes)
    ∧ ∀ r : Registry, ∀ p ∈ Registry.resetAll r, MetricState.IsEmpty p.2 := by
  refine ⟨⟨rfl, rfl, rfl, rfl, rfl, rfl⟩, ⟨rfl, rfl, rfl, rfl, rfl, rfl⟩,
    ⟨rfl, rfl, rfl, rfl, rfl, rfl⟩, ?_⟩
  intro r p hp
  obtain ⟨q, _, rfl⟩ := List.mem_map.mp hp
  exact MetricState.reset_isEmpty q.2

/-- Witness for C8 at a concrete module and registry. -/
theorem c8_epoch_end_reset_frame_witness :
    (on_train_epoch_end wModule).val_metrics = wModule.val_metrics
    ∧ MetricState.IsEmpty (("x", MetricState.multiclassAcc 77 0 0)).2 :=
  ⟨(c8_epoch_end_reset_frame wModule).1.2.1,
    (c8_epoch_end_reset_frame wModule).2.2.2 [("x", MetricState.multiclassAcc 77 3 2)]
      ("x", MetricState.multiclassAcc 77 0 0)
      (by simp [Registry.resetAll, MetricState.reset])⟩

/-- Claim C9: every split's epoch-end reset is idempotent — applying it twice
leaves the module in the same state as applying it once. -/
theorem c9_epoch_end_idempotent (m : ContinualViTLitModule) :
    on_train_epoch_end (on_train_epoch_end m) = on_train_epoch_end m
    ∧ on_validation_epoch_end (on_validation_epoch_end m) = on_validation_epoch_end m
    ∧ on_test_epoch_end (on_test_epoch_end m) = on_test_epoch_end m := by
  cases m
  refine ⟨?_, ?_, ?_⟩ <;>
    simp [on_train_epoch_end, on_validation_epoch_end, on_test_epoch_end,
      Registry.resetAll_idem]

/-- Counterexample for C10 as stated: with the unrecognized split name
`"tets"` the metrics update does not silently update the test registry — the
first keyed access fails (`KeyError`, modelled as `none`), so the call is
rejected and no registry is mutated. -/
theorem c10_counterexample :
    log_metrics wRotErr wModule "tets" 0 0 0 [[1, 0]] [] [5] [] = none := by rfl

/-- Claim C10 (amended): for every prefix other than `"train"` and `"val"`,
`log_metrics` selects the test split's registry and any successful update
leaves the train and val registries (and the task context) unchanged; but
when the test registry lacks the `"{prefix}/loss"` key — the case for every
unrecognized prefix against the constructed registries — the call fails with
a `KeyError` (modelled `none`) instead of updating anything. -/
theorem c10_unrecognized_prefix_selects_test (rotErr : Mat → Mat → List ℚ)
    (m : ContinualViTLitModule) (pre : String) (loss cl ql : ℚ) (pc pq : Mat)
    (oi : List ℕ) (uq : Mat) (h1 : pre ≠ "train") (h2 : pre ≠ "val") :
    selectMetrics m pre = m.test_metrics
    ∧ (∀ m', log_metrics rotErr m pre loss cl ql pc pq oi uq = some m' →
        m'.train_metrics = m.train_metrics ∧ m'.val_metrics = m.val_metrics)
    ∧ (Registry.lookup m.test_metrics (pre ++ "/loss") = none →
        log_metrics rotErr m pre loss cl ql pc pq oi uq = none) := by
  refine ⟨selectMetrics_not_train_val h1 h2, ?_, ?_⟩
  · intro m' h
    obtain ⟨r1, r2, r3, r4, r5, r6, r7, _, _, _, _, _, _, _, hm⟩ :=
      log_metrics_spec h
    rw [hm, setSelected_not_train_val r7 h1 h2]
    exact ⟨rfl, rfl⟩
  · intro hnone
    unfold log_metrics
    rw [selectMetrics_not_train_val h1 h2]
    simp [Registry.updateE_eq_none _ hnone]

/-- Witness for C10 (amended) at the concrete misspelled prefix `"tets"`. -/
theorem c10_unrecognized_prefix_selects_test_witness :
    selectMetrics wModule "tets" = wModule.test_metrics
    ∧ (∀ m', log_metrics wRotErr wModule "tets" 0 0 0 [[1, 0]] [] [5] [] = some m' →
        m'.train_metrics = wModule.train_metrics ∧ m'.val_metrics = wModule.val_metrics)
    ∧ (Registry.lookup wModule.test_metrics ("tets" ++ "/loss") = none →
        log_metrics wRotErr wModule "tets" 0 0 0 [[1, 0]] [] [5] [] = none) :=
  c10_unrecognized_prefix_selects_test wRotErr wModule "tets" 0 0 0 [[1, 0]] []
    [5] [] (by decide) (by decide)
